import Mathlib

/-!
# KLFitter: the double-Gaussian resolution `ResDoubleGaussE_1`

Shallow embedding of `include/ResDoubleGaussE_1.h`.

* A C++ `double` is an element of a carrier `α`.  The sanity check only
  compares with `0.` and assigns `0.`, so its embedding asks of `α` nothing
  but a zero and a decidable `<`; theorems that speak of `≥` take `α` to be a
  linearly ordered field (`ℚ` to run the code, `ℝ` for the density).
* `std::cout` is the list of lines written so far; `<< ... << std::endl`
  appends one line.
* The parameters `double &p3` and `double &p5` are references: each names an
  object of the caller, and nothing prevents a caller from binding both to the
  same object.  Objects are therefore kept in a memory `Loc → α`, and `p3`,
  `p5` are locations, equal or not.  The value of the scale is what the memory
  holds at `p3`, the value of the 2nd sigma what it holds at `p5`.
* `double p2` is passed by value: it is the copy held by the callee.
* A call of `CheckDoubleGaussianSanity(p2, p3, p5)` is a function from the
  stream, the memory and the three arguments to the stream, the copy of `p2`
  and the memory as they stand when the call returns.
-/

namespace KLFitter

/-- The text written to `std::cout` at line 85 of `ResDoubleGaussE_1.h`. -/
def sigmaWarning : String :=
  "KLFitter::ResDoubleGauss::CheckDoubleGaussianSanity() ERROR IN TRANSFERFUNCTIONS the sigma of the main Gaussian is < 0  -  FIT RESULT WILL NOT BE RELIABLE"

/-- The location of an object of type `double`; a reference is bound to one. -/
abbrev Loc := Nat

/-- The memory after the assignment of `v` to the object at `l`. -/
def assign {α : Type} (mem : Loc → α) (l : Loc) (v : α) : Loc → α :=
  fun k => if k = l then v else mem k

/-- Two local variables of a caller, the first at location `0` and the second
at location `1`: two distinct objects holding `a` and `b`. -/
def locals {α : Type} (a b : α) : Loc → α :=
  fun k => if k = 0 then a else b

/-- What a call of `CheckDoubleGaussianSanity` can read or write: the output
stream, its copy of `p2`, and the memory that `p3` and `p5` refer into. -/
structure SanityState (α : Type) where
  /-- Lines written to `std::cout`, oldest first. -/
  cout : List String
  /-- The 1st sigma (by value). -/
  p2 : α
  /-- The objects of type `double`, by location. -/
  mem : Loc → α

/-- Line 85: `if (p2 < 0.) std::cout << "..." << std::endl;`. -/
def warnSigma1 {α : Type} [Zero α] [LT α] [∀ a b : α, Decidable (a < b)]
    (s : SanityState α) : SanityState α :=
  if s.p2 < 0 then ⟨s.cout ++ [sigmaWarning], s.p2, s.mem⟩ else s

/-- Line 86: `if (p3 < 0.) p3 = 0.;`, with `p3` the location the reference is
bound to. -/
def clampScale {α : Type} [Zero α] [LT α] [∀ a b : α, Decidable (a < b)]
    (p3 : Loc) (s : SanityState α) : SanityState α :=
  if s.mem p3 < 0 then ⟨s.cout, s.p2, assign s.mem p3 0⟩ else s

/-- Line 87: `if (p5 < 0.) p3 = 0.;`: the object at `p5` is read, as line 86
left it, and the assignment is to the object at `p3`. -/
def clampScaleOnSigma2 {α : Type} [Zero α] [LT α] [∀ a b : α, Decidable (a < b)]
    (p3 p5 : Loc) (s : SanityState α) : SanityState α :=
  if s.mem p5 < 0 then ⟨s.cout, s.p2, assign s.mem p3 0⟩ else s

/-- The body of `ResDoubleGaussE_1::CheckDoubleGaussianSanity` (lines 84-88):
the three `if` statements in order, started on the stream `cout` and the
memory `mem`, with the value `p2` and the references `p3`, `p5`. -/
def CheckDoubleGaussianSanity {α : Type} [Zero α] [LT α] [∀ a b : α, Decidable (a < b)]
    (cout : List String) (mem : Loc → α) (p2 : α) (p3 p5 : Loc) : SanityState α :=
  clampScaleOnSigma2 p3 p5 (clampScale p3 (warnSigma1 ⟨cout, p2, mem⟩))

/-- The lines a call adds to the stream: what is on `std::cout` after a call
started on the empty stream. -/
def emitted {α : Type} [Zero α] [LT α] [∀ a b : α, Decidable (a < b)]
    (mem : Loc → α) (p2 : α) (p3 p5 : Loc) : List String :=
  (CheckDoubleGaussianSanity [] mem p2 p3 p5).cout

/-! ## The density

`ResDoubleGaussE_1.h` declares `double p(double x, double xmeas)` and the two
constructors, but their bodies (`ResDoubleGaussE_1.cxx`) and the parameter
storage of the base class (`ResolutionBase.h`) are not part of the sources at
hand.  They are modelled below over `ℝ`, from the specification. -/

/-- Modelled from the spec: the parameter storage of `ResolutionBase`, which is
missing from the sources.  The coefficient sequence is held already split into
its five groups, one polynomial `[c0, c1, c2, ...]` per shape parameter (spec
section 3); the groups may have any length, which covers every layout. -/
structure Parameters (α : Type) where
  /-- Coefficients of the mean offset of the first Gaussian. -/
  mu1 : List α
  /-- Coefficients of the sigma of the first Gaussian. -/
  sigma1 : List α
  /-- Coefficients of the relative scale of the second Gaussian. -/
  scale : List α
  /-- Coefficients of the mean offset of the second Gaussian. -/
  mu2 : List α
  /-- Coefficients of the sigma of the second Gaussian. -/
  sigma2 : List α

/-- Modelled from the spec: the tail `c_k*x^k + c_(k+1)*x^(k+1) + ...` of a
coefficient group (the polynomial evaluation inside the missing body of `p`). -/
def polyFrom {α : Type} [Semiring α] (x : α) : Nat → List α → α
  | _, [] => 0
  | k, c :: cs => c * x ^ k + polyFrom x (k + 1) cs

/-- Modelled from the spec: a coefficient group `[c0, c1, c2, ...]` evaluated as
`c0 + c1*x + c2*x^2 + ...` (the polynomial evaluation inside the missing body
of `p`). -/
def evalPoly {α : Type} [Semiring α] (cs : List α) (x : α) : α :=
  polyFrom x 0 cs

/-- Modelled from the spec: one Gaussian component of the missing body of `p`,
`exp(-0.5 * ((xmeas - x - mu)/sigma)^2) / (sigma * sqrt(2*pi))`. -/
noncomputable def gaussComponent (x xmeas mu sigma : ℝ) : ℝ :=
  Real.exp (-0.5 * ((xmeas - x - mu) / sigma) ^ 2) / (sigma * Real.sqrt (2 * Real.pi))

/-- Modelled from the spec: the combination step of the missing body of `p`,
on shape parameters that have been through the sanity check.  A zero width
gives density `0` (spec section 4.2, numeric edge cases); otherwise the result
is `(G1 + scale * G2) / (1 + scale)`. -/
noncomputable def mixture (x xmeas mu1 sigma1 scale mu2 sigma2 : ℝ) : ℝ :=
  if sigma1 = 0 ∨ sigma2 = 0 then 0
  else (gaussComponent x xmeas mu1 sigma1 + scale * gaussComponent x xmeas mu2 sigma2)
        / (1 + scale)

/-- Modelled from the spec: `ResDoubleGaussE_1::p`, whose body is missing from
the sources (spec section 4.2).  The five shape parameters are evaluated as
polynomials in `x` into local variables; `sigma1` goes by value, and the locals
`scale` (location `0`) and `sigma2` (location `1`) go by reference, through
`CheckDoubleGaussianSanity`; the guarded values are combined.  The result is
the output stream after the call and the density. -/
noncomputable def p (P : Parameters ℝ) (cout : List String) (x xmeas : ℝ) :
    List String × ℝ :=
  let s := CheckDoubleGaussianSanity cout (locals (evalPoly P.scale x) (evalPoly P.sigma2 x))
    (evalPoly P.sigma1 x) 0 1
  (s.cout, mixture x xmeas (evalPoly P.mu1 x) s.p2 (s.mem 0) (evalPoly P.mu2 x) (s.mem 1))

/-! ## The sanity check, component by component -/

section Guard

variable {α : Type} [Zero α] [LT α] [∀ a b : α, Decidable (a < b)]

theorem check_cout (cout : List String) (mem : Loc → α) (p2 : α) (p3 p5 : Loc) :
    (CheckDoubleGaussianSanity cout mem p2 p3 p5).cout
      = if p2 < 0 then cout ++ [sigmaWarning] else cout := by
  unfold CheckDoubleGaussianSanity clampScaleOnSigma2 clampScale warnSigma1
  split_ifs <;> rfl

theorem check_p2 (cout : List String) (mem : Loc → α) (p2 : α) (p3 p5 : Loc) :
    (CheckDoubleGaussianSanity cout mem p2 p3 p5).p2 = p2 := by
  unfold CheckDoubleGaussianSanity clampScaleOnSigma2 clampScale warnSigma1
  split_ifs <;> rfl

/-- The memory is independent of the value passed as `p2`. -/
theorem check_mem_eq (cout : List String) (mem : Loc → α) (p2 : α) (p3 p5 : Loc) :
    (CheckDoubleGaussianSanity cout mem p2 p3 p5).mem
      = (clampScaleOnSigma2 p3 p5 (clampScale p3 ⟨cout, p2, mem⟩)).mem := by
  unfold CheckDoubleGaussianSanity clampScaleOnSigma2 clampScale warnSigma1
  split_ifs <;> simp_all

/-- The object at `p3` after the call, whether or not `p5` is the same object. -/
theorem check_mem_p3 (cout : List String) (mem : Loc → α) (p2 : α) (p3 p5 : Loc) :
    (CheckDoubleGaussianSanity cout mem p2 p3 p5).mem p3
      = if mem p3 < 0 then 0 else if mem p5 < 0 then 0 else mem p3 := by
  rw [check_mem_eq]
  unfold clampScaleOnSigma2 clampScale
  by_cases h3 : mem p3 < 0
  · simp only [h3, if_true]
    split_ifs <;> simp [assign]
  · simp only [h3, if_false]
    split_ifs <;> simp [assign]

/-- No object other than the one at `p3` is written. -/
theorem check_mem_other (cout : List String) (mem : Loc → α) (p2 : α) (p3 p5 k : Loc)
    (h : k ≠ p3) :
    (CheckDoubleGaussianSanity cout mem p2 p3 p5).mem k = mem k := by
  rw [check_mem_eq]
  unfold clampScaleOnSigma2 clampScale
  split_ifs <;> simp [assign, h]

end Guard

example : (CheckDoubleGaussianSanity [] (locals (-1) 3) (2 : ℚ) 0 1).mem 0 = 0 := by decide
example : (CheckDoubleGaussianSanity [] (locals (-1) 3) (2 : ℚ) 0 1).mem 1 = 3 := by decide
example : (CheckDoubleGaussianSanity [] (locals 4 (-3)) (-2 : ℚ) 0 1).mem 0 = 0 := by decide
example : (CheckDoubleGaussianSanity [] (locals 4 (-3)) (-2 : ℚ) 0 1).mem 1 = -3 := by decide
example : (CheckDoubleGaussianSanity [] (locals 4 (-3)) (-2 : ℚ) 0 1).cout = [sigmaWarning] := by
  decide
example : (CheckDoubleGaussianSanity [] (locals (-1) 7) (1 : ℚ) 0 0).mem 0 = 0 := by decide
example : evalPoly [(1 : ℚ), 2, 3] 2 = 17 := by norm_num [evalPoly, polyFrom]

/-! ## The Gaussian component -/

section Density

/-- With a positive width the component is the normal density with mean
`x + mu` and variance `sigma ^ 2`, taken at `xmeas`. -/
theorem gaussComponent_eq_gaussianPDFReal (x xmeas mu sigma : ℝ) (h : 0 < sigma) :
    gaussComponent x xmeas mu sigma
      = ProbabilityTheory.gaussianPDFReal (x + mu) ⟨sigma ^ 2, sq_nonneg sigma⟩ xmeas := by
  unfold gaussComponent ProbabilityTheory.gaussianPDFReal
  have hs : Real.sqrt (2 * Real.pi * sigma ^ 2) = sigma * Real.sqrt (2 * Real.pi) := by
    rw [Real.sqrt_mul (by positivity), Real.sqrt_sq h.le, mul_comm]
  have he : -0.5 * ((xmeas - x - mu) / sigma) ^ 2
      = -(xmeas - (x + mu)) ^ 2 / (2 * sigma ^ 2) := by
    field_simp
    ring
  simp only [NNReal.coe_mk]
  rw [hs, he, div_eq_inv_mul]

theorem gaussComponent_integrable (x mu sigma : ℝ) (h : 0 < sigma) :
    MeasureTheory.Integrable (fun xmeas => gaussComponent x xmeas mu sigma) := by
  have hfun : (fun xmeas => gaussComponent x xmeas mu sigma)
      = ProbabilityTheory.gaussianPDFReal (x + mu) ⟨sigma ^ 2, sq_nonneg sigma⟩ := by
    funext xmeas
    exact gaussComponent_eq_gaussianPDFReal x xmeas mu sigma h
  rw [hfun]
  exact ProbabilityTheory.integrable_gaussianPDFReal _ _

theorem gaussComponent_integral (x mu sigma : ℝ) (h : 0 < sigma) :
    ∫ xmeas, gaussComponent x xmeas mu sigma = 1 := by
  have hfun : (fun xmeas => gaussComponent x xmeas mu sigma)
      = ProbabilityTheory.gaussianPDFReal (x + mu) ⟨sigma ^ 2, sq_nonneg sigma⟩ := by
    funext xmeas
    exact gaussComponent_eq_gaussianPDFReal x xmeas mu sigma h
  rw [hfun]
  apply ProbabilityTheory.integral_gaussianPDFReal_eq_one
  intro h0
  have h1 : sigma ^ 2 = 0 := congrArg NNReal.toReal h0
  have h2 : 0 < sigma ^ 2 := by positivity
  linarith

/-- A component of non-negative width is non-negative. -/
theorem gaussComponent_nonneg (x xmeas mu sigma : ℝ) (h : 0 ≤ sigma) :
    0 ≤ gaussComponent x xmeas mu sigma := by
  unfold gaussComponent
  positivity

/-- A component of negative width is negative. -/
theorem gaussComponent_neg (x xmeas mu sigma : ℝ) (h : sigma < 0) :
    gaussComponent x xmeas mu sigma < 0 := by
  unfold gaussComponent
  apply div_neg_of_pos_of_neg (Real.exp_pos _)
  have : 0 < Real.sqrt (2 * Real.pi) := by positivity
  nlinarith

/-- The density that `p` returns, with the guard unfolded. -/
theorem p_snd (P : Parameters ℝ) (cout : List String) (x xmeas : ℝ) :
    (p P cout x xmeas).2
      = mixture x xmeas (evalPoly P.mu1 x) (evalPoly P.sigma1 x)
          (if evalPoly P.scale x < 0 then 0
            else if evalPoly P.sigma2 x < 0 then 0 else evalPoly P.scale x)
          (evalPoly P.mu2 x) (evalPoly P.sigma2 x) := by
  unfold p
  simp only [check_p2, check_mem_p3]
  rw [check_mem_other _ _ _ 0 1 1 (by decide)]
  simp [locals]

end Density

/-! ## Claims about the sanity check

In every theorem `mem` is the memory before the call, `p3` and `p5` are the
locations the two references are bound to (equal or not), `mem p3` is the scale
passed in and `mem p5` the 2nd sigma passed in. -/

section GuardClaims

variable {α : Type} [Zero α] [LT α] [∀ a b : α, Decidable (a < b)]

/-- C1: a negative scale is clamped.  For every stream, every sigma1 `p2`, every
sigma2 and every scale with `scale < 0`, the scale left in `p3` by
`CheckDoubleGaussianSanity` is exactly `0`; this holds whether or not `p5` is
bound to the same object as `p3`. -/
theorem negative_scale_is_clamped (cout : List String) (mem : Loc → α) (p2 : α)
    (p3 p5 : Loc) (h : mem p3 < 0) :
    (CheckDoubleGaussianSanity cout mem p2 p3 p5).mem p3 = 0 := by
  rw [check_mem_p3]
  simp [h]

/-- C2, amended: for every sigma1 `p2`, every scale of either sign and every
sigma2 with `sigma2 < 0`, after `CheckDoubleGaussianSanity` the scale `p3` is
exactly `0`; and when `p3` and `p5` are bound to distinct objects, `p5` still
holds its original, negative, value. -/
theorem negative_sigma2_clamps_scale (cout : List String) (mem : Loc → α) (p2 : α)
    (p3 p5 : Loc) (h : mem p5 < 0) :
    (CheckDoubleGaussianSanity cout mem p2 p3 p5).mem p3 = 0 ∧
    (p3 ≠ p5 →
      (CheckDoubleGaussianSanity cout mem p2 p3 p5).mem p5 = mem p5 ∧
      (CheckDoubleGaussianSanity cout mem p2 p3 p5).mem p5 < 0) := by
  constructor
  · rw [check_mem_p3]
    simp [h]
  · intro hd
    have hk : (CheckDoubleGaussianSanity cout mem p2 p3 p5).mem p5 = mem p5 :=
      check_mem_other cout mem p2 p3 p5 p5 (Ne.symm hd)
    exact ⟨hk, by rw [hk]; exact h⟩

/-- C3, amended: `CheckDoubleGaussianSanity` leaves sigma2 as it was whenever
`p3` and `p5` are bound to distinct objects, and also when they are bound to one
object whose value is not negative. -/
theorem sigma2_unchanged_unless_aliased_negative (cout : List String) (mem : Loc → α)
    (p2 : α) (p3 p5 : Loc) (h : p3 ≠ p5 ∨ ¬ mem p5 < 0) :
    (CheckDoubleGaussianSanity cout mem p2 p3 p5).mem p5 = mem p5 := by
  by_cases hd : p5 = p3
  · subst hd
    rcases h with h | h
    · exact absurd rfl h
    · rw [check_mem_p3]
      simp [h]
  · exact check_mem_other cout mem p2 p3 p5 p5 hd

/-- C7: sigma1 does not influence the correction.  For every scale, every
sigma2 and any two sigma1 values `a` and `b`, the two calls leave the same
scale and the same sigma2 (indeed the same memory); and sigma1 itself is
returned as it was passed, neither clamped nor changed. -/
theorem sigma1_does_not_influence_correction (cout : List String) (mem : Loc → α)
    (a b : α) (p3 p5 : Loc) :
    (CheckDoubleGaussianSanity cout mem a p3 p5).mem p3
      = (CheckDoubleGaussianSanity cout mem b p3 p5).mem p3 ∧
    (CheckDoubleGaussianSanity cout mem a p3 p5).mem p5
      = (CheckDoubleGaussianSanity cout mem b p3 p5).mem p5 ∧
    (CheckDoubleGaussianSanity cout mem a p3 p5).mem
      = (CheckDoubleGaussianSanity cout mem b p3 p5).mem ∧
    (CheckDoubleGaussianSanity cout mem a p3 p5).p2 = a ∧
    (CheckDoubleGaussianSanity cout mem b p3 p5).p2 = b := by
  have hm : (CheckDoubleGaussianSanity cout mem a p3 p5).mem
      = (CheckDoubleGaussianSanity cout mem b p3 p5).mem := by
    rw [check_mem_eq, check_mem_eq]
    unfold clampScaleOnSigma2 clampScale
    split_ifs <;> rfl
  exact ⟨congrFun hm p3, congrFun hm p5, hm, check_p2 cout mem a p3 p5,
    check_p2 cout mem b p3 p5⟩

end GuardClaims

section OrderedClaims

variable {α : Type} [LinearOrderedField α]

/-- C6: a warning exactly when sigma1 is negative.  One call of
`CheckDoubleGaussianSanity` appends exactly one diagnostic line to the stream
if `p2 < 0` and appends nothing if `p2 ≥ 0`, for every scale and sigma2; the
call is a total function, so it returns in both cases. -/
theorem warning_iff_sigma1_negative (cout : List String) (mem : Loc → α) (p2 : α)
    (p3 p5 : Loc) :
    (p2 < 0 → (CheckDoubleGaussianSanity cout mem p2 p3 p5).cout = cout ++ [sigmaWarning] ∧
        emitted mem p2 p3 p5 = [sigmaWarning] ∧ (emitted mem p2 p3 p5).length = 1) ∧
    (0 ≤ p2 → (CheckDoubleGaussianSanity cout mem p2 p3 p5).cout = cout ∧
        emitted mem p2 p3 p5 = []) := by
  unfold emitted
  constructor
  · intro h
    simp [check_cout, h]
  · intro h
    simp [check_cout, not_lt.mpr h]

/-- C9: guard postcondition.  For every input triple the scale left in `p3` by
`CheckDoubleGaussianSanity` is `≥ 0`; hence the mixture denominator
`1 + scale` is `≥ 1` and is not zero. -/
theorem guarded_scale_nonneg (cout : List String) (mem : Loc → α) (p2 : α) (p3 p5 : Loc) :
    0 ≤ (CheckDoubleGaussianSanity cout mem p2 p3 p5).mem p3 ∧
    1 ≤ 1 + (CheckDoubleGaussianSanity cout mem p2 p3 p5).mem p3 ∧
    1 + (CheckDoubleGaussianSanity cout mem p2 p3 p5).mem p3 ≠ 0 := by
  have h0 : 0 ≤ (CheckDoubleGaussianSanity cout mem p2 p3 p5).mem p3 := by
    rw [check_mem_p3]
    split_ifs with h3 h5
    · exact le_refl 0
    · exact le_refl 0
    · exact not_lt.mp h3
  refine ⟨h0, by linarith, by linarith⟩

/-- C10: the guard is the identity on physical parameters.  For every sigma1
`p2`, every scale `≥ 0` and every sigma2 `≥ 0`, the call leaves `p3` and `p5`
as they were passed in (and every other object too). -/
theorem guard_identity_on_nonneg (cout : List String) (mem : Loc → α) (p2 : α)
    (p3 p5 : Loc) (h3 : 0 ≤ mem p3) (h5 : 0 ≤ mem p5) :
    (CheckDoubleGaussianSanity cout mem p2 p3 p5).mem p3 = mem p3 ∧
    (CheckDoubleGaussianSanity cout mem p2 p3 p5).mem p5 = mem p5 ∧
    (CheckDoubleGaussianSanity cout mem p2 p3 p5).mem = mem := by
  have e3 : (CheckDoubleGaussianSanity cout mem p2 p3 p5).mem p3 = mem p3 := by
    rw [check_mem_p3]
    simp [not_lt.mpr h3, not_lt.mpr h5]
  have all : ∀ k, (CheckDoubleGaussianSanity cout mem p2 p3 p5).mem k = mem k := by
    intro k
    by_cases hk : k = p3
    · subst hk
      exact e3
    · exact check_mem_other cout mem p2 p3 p5 k hk
  exact ⟨e3, all p5, funext all⟩

/-- The scale is changed only when the scale or sigma2 is negative. -/
theorem scale_changed_only_if_negative (cout : List String) (mem : Loc → α) (p2 : α)
    (p3 p5 : Loc) (h : (CheckDoubleGaussianSanity cout mem p2 p3 p5).mem p3 ≠ mem p3) :
    mem p3 < 0 ∨ mem p5 < 0 := by
  by_contra hn
  push_neg at hn
  apply h
  rw [check_mem_p3]
  simp [not_lt.mpr hn.1, not_lt.mpr hn.2]

end OrderedClaims

/-! ## Witnesses and counterexamples

A call on two distinct local variables holding `a` and `b` is a call on the
memory `locals a b` with `p3 = 0` and `p5 = 1`; the call `f(p2, v, v)` on one
variable `v` holding `a` is a call on `locals a b` with `p3 = 0` and `p5 = 0`. -/

/-- Witness for C1 at `p2 = 2`, scale `-1`, sigma2 `3`, over `ℚ`. -/
theorem negative_scale_is_clamped_witness :
    locals (-1 : ℚ) 3 0 < 0 ∧
    (CheckDoubleGaussianSanity [] (locals (-1 : ℚ) 3) 2 0 1).mem 0 = 0 :=
  ⟨by decide, negative_scale_is_clamped [] (locals (-1 : ℚ) 3) 2 0 1 (by decide)⟩

/-- C2, as stated, fails on a call that binds `p3` and `p5` to one object:
with `double v = -1`, the call `CheckDoubleGaussianSanity(1, v, v)` has
`sigma2 = -1 < 0`, line 86 writes `0` into `v`, and afterwards `p5` holds `0`:
not its original value, and not a negative one. -/
theorem aliased_negative_sigma2_is_overwritten :
    locals (-1 : ℚ) 7 0 < 0 ∧
    (CheckDoubleGaussianSanity [] (locals (-1 : ℚ) 7) 1 0 0).mem 0 = 0 ∧
    (CheckDoubleGaussianSanity [] (locals (-1 : ℚ) 7) 1 0 0).mem 0 ≠ locals (-1 : ℚ) 7 0 ∧
    ¬ (CheckDoubleGaussianSanity [] (locals (-1 : ℚ) 7) 1 0 0).mem 0 < 0 := by
  decide

/-- Witness for the amended C2 at `p2 = 2`, scale `4`, sigma2 `-3`, on two
distinct objects, over `ℚ`. -/
theorem negative_sigma2_clamps_scale_witness :
    locals (4 : ℚ) (-3) 1 < 0 ∧ (0 : Loc) ≠ 1 ∧
    (CheckDoubleGaussianSanity [] (locals (4 : ℚ) (-3)) 2 0 1).mem 0 = 0 ∧
    (CheckDoubleGaussianSanity [] (locals (4 : ℚ) (-3)) 2 0 1).mem 1 = locals (4 : ℚ) (-3) 1 ∧
    (CheckDoubleGaussianSanity [] (locals (4 : ℚ) (-3)) 2 0 1).mem 1 < 0 :=
  ⟨by decide, by decide,
    (negative_sigma2_clamps_scale [] (locals (4 : ℚ) (-3)) 2 0 1 (by decide)).1,
    (negative_sigma2_clamps_scale [] (locals (4 : ℚ) (-3)) 2 0 1 (by decide)).2 (by decide)⟩

/-- C3, as stated, fails on a call that binds `p3` and `p5` to one object:
with `double v = -3`, after `CheckDoubleGaussianSanity(2, v, v)` the object
that `p5` names holds `0`, not `-3`. -/
theorem aliased_sigma2_is_modified :
    locals (-3 : ℚ) 5 0 = -3 ∧
    (CheckDoubleGaussianSanity [] (locals (-3 : ℚ) 5) 2 0 0).mem 0 = 0 ∧
    (CheckDoubleGaussianSanity [] (locals (-3 : ℚ) 5) 2 0 0).mem 0 ≠ locals (-3 : ℚ) 5 0 := by
  decide

/-- Witness for the amended C3 on two distinct objects: `p2 = -2`, scale `4`,
sigma2 `-3`, over `ℚ`. -/
theorem sigma2_unchanged_unless_aliased_negative_witness :
    ((0 : Loc) ≠ 1 ∨ ¬ locals (4 : ℚ) (-3) 1 < 0) ∧
    (CheckDoubleGaussianSanity [] (locals (4 : ℚ) (-3)) (-2) 0 1).mem 1
      = locals (4 : ℚ) (-3) 1 :=
  ⟨Or.inl (by decide),
    sigma2_unchanged_unless_aliased_negative [] (locals (4 : ℚ) (-3)) (-2) 0 1
      (Or.inl (by decide))⟩

/-- Witness for C6: one line at `p2 = -2`, none at `p2 = 2`, over `ℚ`. -/
theorem warning_iff_sigma1_negative_witness :
    ((-2 : ℚ) < 0 ∧ emitted (locals (4 : ℚ) 3) (-2) 0 1 = [sigmaWarning]) ∧
    ((0 : ℚ) ≤ 2 ∧ emitted (locals (4 : ℚ) 3) 2 0 1 = []) :=
  ⟨⟨by decide,
      ((warning_iff_sigma1_negative [] (locals (4 : ℚ) 3) (-2) 0 1).1 (by decide)).2.1⟩,
   ⟨by decide,
      ((warning_iff_sigma1_negative [] (locals (4 : ℚ) 3) 2 0 1).2 (by decide)).2⟩⟩

/-- Witness for C10 at `p2 = -2`, scale `4`, sigma2 `3`, over `ℚ`. -/
theorem guard_identity_on_nonneg_witness :
    0 ≤ locals (4 : ℚ) 3 0 ∧ 0 ≤ locals (4 : ℚ) 3 1 ∧
    (CheckDoubleGaussianSanity [] (locals (4 : ℚ) 3) (-2) 0 1).mem 0 = locals (4 : ℚ) 3 0 ∧
    (CheckDoubleGaussianSanity [] (locals (4 : ℚ) 3) (-2) 0 1).mem 1 = locals (4 : ℚ) 3 1 :=
  ⟨by decide, by decide,
    (guard_identity_on_nonneg [] (locals (4 : ℚ) 3) (-2) 0 1 (by decide) (by decide)).1,
    (guard_identity_on_nonneg [] (locals (4 : ℚ) 3) (-2) 0 1 (by decide) (by decide)).2.1⟩

/-! ## Claims about the density -/

/-- C4, as stated, fails: with constant polynomials `mu1 = 0`, `sigma1 = -1`,
`scale = 0`, `mu2 = 0`, `sigma2 = 1` the density at `x = 0`, `xmeas = 0` is
`exp(0) / (-1 * sqrt(2*pi))`, which is negative. -/
theorem density_negative_for_negative_sigma1 :
    (p ⟨[0], [-1], [0], [0], [1]⟩ [] 0 0).2 = -(1 / Real.sqrt (2 * Real.pi)) ∧
    (p ⟨[0], [-1], [0], [0], [1]⟩ [] 0 0).2 < 0 := by
  have hv : (p ⟨[0], [-1], [0], [0], [1]⟩ [] 0 0).2 = -(1 / Real.sqrt (2 * Real.pi)) := by
    rw [p_snd]
    norm_num [evalPoly, polyFrom, mixture, gaussComponent]
    rw [inv_neg, mul_inv_rev]
  refine ⟨hv, ?_⟩
  rw [hv]
  have : 0 < Real.sqrt (2 * Real.pi) := by positivity
  have : 0 < 1 / Real.sqrt (2 * Real.pi) := by positivity
  linarith

/-- C4, amended: for all coefficient groups, every stream and all `x`, `xmeas`
such that the sigma1 polynomial is `≥ 0` at `x`, the density `p(x, xmeas)` is
`≥ 0`; the sigma2 and scale polynomials may take any value there, negative
ones included. -/
theorem density_nonneg_of_sigma1_nonneg (P : Parameters ℝ) (cout : List String)
    (x xmeas : ℝ) (h : 0 ≤ evalPoly P.sigma1 x) :
    0 ≤ (p P cout x xmeas).2 := by
  rw [p_snd]
  unfold mixture
  have hG1 := gaussComponent_nonneg x xmeas (evalPoly P.mu1 x) (evalPoly P.sigma1 x) h
  split_ifs with hz h3 h5
  · exact le_refl 0
  · simpa using hG1
  · simpa using hG1
  · have hG2 := gaussComponent_nonneg x xmeas (evalPoly P.mu2 x) (evalPoly P.sigma2 x)
      (not_lt.mp h5)
    have hs : 0 ≤ evalPoly P.scale x := not_lt.mp h3
    apply div_nonneg
    · exact add_nonneg hG1 (mul_nonneg hs hG2)
    · linarith

/-- Witness for the amended C4: `sigma1 = 2`, `scale = 0.3`, `sigma2 = -5`,
at `x = 100`, `xmeas = 101`. -/
theorem density_nonneg_of_sigma1_nonneg_witness :
    (0 : ℝ) ≤ evalPoly [2] 100 ∧
    0 ≤ (p ⟨[0], [2], [0.3], [0], [-5]⟩ [] 100 101).2 :=
  ⟨by norm_num [evalPoly, polyFrom],
    density_nonneg_of_sigma1_nonneg ⟨[0], [2], [0.3], [0], [-5]⟩ [] 100 101
      (by norm_num [evalPoly, polyFrom])⟩

/-- C8: normalization law.  For every true value `x` and all coefficient groups
whose shape parameters at `x` satisfy `sigma1 > 0`, `sigma2 > 0` and
`scale ≥ 0`, the density is `(G1 + scale * G2) / (1 + scale)` at every `xmeas`,
and its integral over `xmeas` from `-∞` to `+∞` is `1`. -/
theorem density_integrates_to_one (P : Parameters ℝ) (cout : List String) (x : ℝ)
    (h1 : 0 < evalPoly P.sigma1 x) (h2 : 0 < evalPoly P.sigma2 x)
    (hs : 0 ≤ evalPoly P.scale x) :
    (∀ xmeas, (p P cout x xmeas).2
        = (gaussComponent x xmeas (evalPoly P.mu1 x) (evalPoly P.sigma1 x)
            + evalPoly P.scale x * gaussComponent x xmeas (evalPoly P.mu2 x) (evalPoly P.sigma2 x))
          / (1 + evalPoly P.scale x)) ∧
    ∫ xmeas, (p P cout x xmeas).2 = 1 := by
  have hform : ∀ xmeas, (p P cout x xmeas).2
      = (gaussComponent x xmeas (evalPoly P.mu1 x) (evalPoly P.sigma1 x)
          + evalPoly P.scale x * gaussComponent x xmeas (evalPoly P.mu2 x) (evalPoly P.sigma2 x))
        / (1 + evalPoly P.scale x) := by
    intro xmeas
    rw [p_snd]
    unfold mixture
    simp [not_lt.mpr h2.le, not_lt.mpr hs, h1.ne.symm, h2.ne.symm]
  refine ⟨hform, ?_⟩
  simp only [hform]
  have i1 := gaussComponent_integrable x (evalPoly P.mu1 x) (evalPoly P.sigma1 x) h1
  have i2 := gaussComponent_integrable x (evalPoly P.mu2 x) (evalPoly P.sigma2 x) h2
  rw [MeasureTheory.integral_div, MeasureTheory.integral_add i1 (i2.const_mul _),
    MeasureTheory.integral_mul_left, gaussComponent_integral _ _ _ h1,
    gaussComponent_integral _ _ _ h2, mul_one]
  exact div_self (by linarith)

/-- Witness for C8: the constant polynomials `mu1 = 0`, `sigma1 = 2`,
`scale = 0.3`, `mu2 = 0`, `sigma2 = 5` at `x = 100`. -/
theorem density_integrates_to_one_witness :
    (0 : ℝ) < evalPoly [2] 100 ∧ (0 : ℝ) < evalPoly [5] 100 ∧ (0 : ℝ) ≤ evalPoly [0.3] 100 ∧
    ∫ xmeas, (p ⟨[0], [2], [0.3], [0], [5]⟩ [] 100 xmeas).2 = 1 :=
  ⟨by norm_num [evalPoly, polyFrom], by norm_num [evalPoly, polyFrom],
    by norm_num [evalPoly, polyFrom],
    (density_integrates_to_one ⟨[0], [2], [0.3], [0], [5]⟩ [] 100
      (by norm_num [evalPoly, polyFrom]) (by norm_num [evalPoly, polyFrom])
      (by norm_num [evalPoly, polyFrom])).2⟩

end KLFitter
